import Mathlib

/-!
# Verification of the PyPI MMM download tracker pipeline

Shallow embedding of `pypi_mmm_tracker.py`: a linear pipeline that fetches
daily download statistics per package, filters them by reporting category and
date range, aggregates them over a fixed catalog, renders a two-panel chart
and persists the recent-window table as a CSV file.

Calendar dates are modelled as integers (the code only compares parsed dates
with a linear order); download counts are modelled as integers.  The remote
statistics service is modelled as an explicit parameter: each call either
returns a list of raw rows or fails with an error message.  Printed output is
modelled as an explicit list of emitted message strings.
-/

namespace PypiMMM

/-- A raw row as returned by `pypistats.overall(..., total="daily")`:
a reporting category, a calendar date and a download count. -/
structure RawRecord where
  category : String
  date : Int
  downloads : Int
deriving Repr, DecidableEq

/-- A row of the DataFrame built by `get_daily_downloads`:
columns `date`, `downloads`, `package` in that order. -/
structure Record where
  date : Int
  downloads : Int
  package : String
deriving Repr, DecidableEq

/-- A row of an aggregated table: the Fetcher's columns plus the
`display_name` column added by `fetch_all_daily_data` /
`fetch_all_cumulative_data`. -/
structure TaggedRecord where
  date : Int
  downloads : Int
  package : String
  display_name : String
deriving Repr, DecidableEq

/-- The outcome of one call to the remote statistics service
(`pypistats.overall`): either the full per-day table for the package, or a
raised error carrying a message. -/
inductive FetchResult where
  | success : List RawRecord → FetchResult
  | failure : String → FetchResult
deriving Repr, DecidableEq

/-- The message printed at the top of `get_daily_downloads`. -/
def fetchingMessage (package_name : String) : String :=
  "Fetching real daily data for " ++ package_name ++ "..."

/-- The diagnostic printed by the `except` clause of `get_daily_downloads`. -/
def errorMessage (package_name err : String) : String :=
  "Error fetching data for " ++ package_name ++ ": " ++ err

/-- What one call of `get_daily_downloads` produces: the returned rows and
the messages it printed. -/
structure FetchOutput where
  records : List Record
  messages : List String
deriving Repr, DecidableEq

/-- The Fetcher `get_daily_downloads(package_name, start_date, end_date)`.

The service call is passed in as `fetched`.  On failure the `except` branch
prints a diagnostic and returns an empty frame.  On success: an empty frame
is returned unchanged; otherwise the rows are restricted to the
`without_mirrors` category, then to dates in `[start_date, end_date]`
inclusive, and projected to `date`, `downloads` plus a `package` column
holding `package_name`. -/
def get_daily_downloads (package_name : String) (start_date end_date : Int)
    (fetched : FetchResult) : FetchOutput :=
  match fetched with
  | .failure e =>
      { records := [],
        messages := [fetchingMessage package_name, errorMessage package_name e] }
  | .success data =>
      if data.isEmpty then
        { records := [], messages := [fetchingMessage package_name] }
      else
        let byCategory := data.filter (fun r => r.category == "without_mirrors")
        let masked := byCategory.filter
          (fun r => decide (start_date ≤ r.date) && decide (r.date ≤ end_date))
        { records := masked.map
            (fun r => { date := r.date, downloads := r.downloads, package := package_name }),
          messages := [fetchingMessage package_name] }

end PypiMMM

namespace PypiMMM

/-- C1: every record returned by the Fetcher stems from a raw service row
whose reporting category is `without_mirrors` and whose date lies in
`[start_date, end_date]` inclusive; no row outside that category or date
range contributes a record. -/
theorem get_daily_downloads_category_and_range
    (package_name : String) (start_date end_date : Int)
    (hdates : start_date ≤ end_date) (fetched : FetchResult) (r : Record)
    (hr : r ∈ (get_daily_downloads package_name start_date end_date fetched).records) :
    ∃ data raw, fetched = FetchResult.success data ∧ raw ∈ data ∧
      raw.category = "without_mirrors" ∧
      start_date ≤ raw.date ∧ raw.date ≤ end_date ∧
      r.date = raw.date ∧ r.downloads = raw.downloads ∧ r.package = package_name := by
  cases fetched with
  | failure e => simp [get_daily_downloads] at hr
  | success data =>
      simp only [get_daily_downloads] at hr
      split at hr
      · simp at hr
      · simp only [List.mem_map, List.mem_filter, Bool.and_eq_true,
          decide_eq_true_eq, beq_iff_eq] at hr
        obtain ⟨raw, ⟨⟨hraw, hcat⟩, hlo, hhi⟩, hrEq⟩ := hr
        exact ⟨data, raw, rfl, hraw, hcat, hlo, hhi, by simp [← hrEq]⟩

/-- Witness for C1 at a concrete input. -/
theorem get_daily_downloads_category_and_range_witness :
    ∃ data raw,
      FetchResult.success [RawRecord.mk "without_mirrors" 5 7] = FetchResult.success data ∧
      raw ∈ data ∧ raw.category = "without_mirrors" ∧
      (3 : Int) ≤ raw.date ∧ raw.date ≤ 9 ∧
      (Record.mk 5 7 "orbit-ml").date = raw.date ∧
      (Record.mk 5 7 "orbit-ml").downloads = raw.downloads ∧
      (Record.mk 5 7 "orbit-ml").package = "orbit-ml" :=
  get_daily_downloads_category_and_range "orbit-ml" 3 9 (by decide)
    (FetchResult.success [RawRecord.mk "without_mirrors" 5 7])
    (Record.mk 5 7 "orbit-ml") (by decide)

/-- C10: when the Fetcher's precondition is violated (`start_date > end_date`),
the inclusive-range mask is unsatisfiable, so `get_daily_downloads` returns an
empty sequence (and does not raise) regardless of what the service returned. -/
theorem get_daily_downloads_empty_of_inverted_range
    (package_name : String) (start_date end_date : Int)
    (hdates : end_date < start_date) (fetched : FetchResult) :
    (get_daily_downloads package_name start_date end_date fetched).records = [] := by
  cases fetched with
  | failure e => rfl
  | success data =>
      simp only [get_daily_downloads]
      split
      · rfl
      · simp only [List.map_eq_nil_iff, List.filter_eq_nil_iff, Bool.and_eq_true,
          decide_eq_true_eq, not_and]
        intro r _ hlo hhi
        exact absurd (le_trans hlo hhi) (not_le.mpr hdates)

/-- Witness for C10 at a concrete input. -/
theorem get_daily_downloads_empty_of_inverted_range_witness :
    (get_daily_downloads "robynpy" 9 3
      (FetchResult.success [RawRecord.mk "without_mirrors" 5 7])).records = [] :=
  get_daily_downloads_empty_of_inverted_range "robynpy" 9 3 (by decide)
    (FetchResult.success [RawRecord.mk "without_mirrors" 5 7])

/-- An entry of the fixed package catalog `MMM_PACKAGES`:
a display name mapped to a PyPI package identifier. -/
structure CatalogEntry where
  display_name : String
  package_name : String
deriving Repr, DecidableEq

/-- The fixed catalog of tracked packages (`MMM_PACKAGES`). -/
def MMM_PACKAGES : List CatalogEntry :=
  [⟨"PyMC Marketing", "pymc-marketing"⟩,
   ⟨"Google Meridian", "google-meridian"⟩,
   ⟨"Meta Robyn (Python)", "robynpy"⟩,
   ⟨"Uber Orbit", "orbit-ml"⟩]

/-- Tagging step `df[\x27display_name\x27] = display_name`: tag every fetched record with the
catalog entry's display name. -/
def tagRecords (name : String) (rs : List Record) : List TaggedRecord :=
  rs.map (fun r => ⟨r.date, r.downloads, r.package, name⟩)

/-- The aggregation loop shared by `fetch_all_daily_data` and
`fetch_all_cumulative_data`: for each catalog entry fetch its records for the
date range, and if the result is non-empty tag it with the display name and
append it; finally concatenate everything (`pd.concat`; the empty DataFrame
when nothing accumulated). -/
def fetch_all (catalog : List CatalogEntry) (start_date end_date : Int)
    (fetch : String → FetchResult) : List TaggedRecord :=
  (catalog.map (fun entry =>
    let df := (get_daily_downloads entry.package_name start_date end_date
      (fetch entry.package_name)).records
    if df.isEmpty then [] else tagRecords entry.display_name df)).flatten

/-- The Aggregator variant `fetch_all_daily_data(days)`: aggregate over the recent window
`[today - days, today]`. -/
def fetch_all_daily_data (days today : Int) (fetch : String → FetchResult) :
    List TaggedRecord :=
  fetch_all MMM_PACKAGES (today - days) today fetch

/-- The Aggregator variant `fetch_all_cumulative_data()`: aggregate over the full-history window
`[today - 3650, today]`. -/
def fetch_all_cumulative_data (today : Int) (fetch : String → FetchResult) :
    List TaggedRecord :=
  fetch_all MMM_PACKAGES (today - 365 * 10) today fetch

/-- Every row of an aggregated table carries the package identifier of some
catalog entry. -/
theorem fetch_all_package_mem (catalog : List CatalogEntry) (s e : Int)
    (fetch : String → FetchResult) (r : TaggedRecord)
    (hr : r ∈ fetch_all catalog s e fetch) :
    ∃ en ∈ catalog, r.package = en.package_name := by
  simp only [fetch_all, List.mem_flatten, List.mem_map] at hr
  obtain ⟨block, ⟨en, hen, hblock⟩, hrb⟩ := hr
  refine ⟨en, hen, ?_⟩
  subst hblock
  split at hrb
  · simp at hrb
  · simp only [tagRecords, List.mem_map] at hrb
    obtain ⟨rec, hrec, hEq⟩ := hrb
    have : rec.package = en.package_name := by
      rcases hf : fetch en.package_name with data | msg
      · simp only [get_daily_downloads, hf] at hrec
        split at hrec
        · simp at hrec
        · simp only [List.mem_map] at hrec
          obtain ⟨raw, _, hrec⟩ := hrec
          simp [← hrec]
      · simp [get_daily_downloads, hf] at hrec
    simp [← hEq, this]

/-- C2: a package whose fetch fails or which yields zero records produces an
empty sequence from the Fetcher after a printed message naming the package
(on failure, a diagnostic naming package and error); the aggregated table is
the same as if the entry were absent from the catalog, so it contains no row
for that package while all other packages' rows are unaffected. -/
theorem fetch_all_isolates_failures
    (pre post : List CatalogEntry) (entry : CatalogEntry) (s e : Int)
    (fetch : String → FetchResult)
    (hfail : (∃ err, fetch entry.package_name = FetchResult.failure err) ∨
      (get_daily_downloads entry.package_name s e (fetch entry.package_name)).records = [])
    (hdistinct : ∀ en ∈ pre ++ post, en.package_name ≠ entry.package_name) :
    (get_daily_downloads entry.package_name s e (fetch entry.package_name)).records = [] ∧
    (∃ m ∈ (get_daily_downloads entry.package_name s e (fetch entry.package_name)).messages,
      ∃ a b, m = a ++ entry.package_name ++ b) ∧
    fetch_all (pre ++ entry :: post) s e fetch = fetch_all (pre ++ post) s e fetch ∧
    (∀ r ∈ fetch_all (pre ++ entry :: post) s e fetch, r.package ≠ entry.package_name) := by
  have hempty :
      (get_daily_downloads entry.package_name s e (fetch entry.package_name)).records = [] := by
    rcases hfail with ⟨err, herr⟩ | h
    · simp [herr, get_daily_downloads]
    · exact h
  have hmsg : ∃ m ∈ (get_daily_downloads entry.package_name s e
      (fetch entry.package_name)).messages, ∃ a b, m = a ++ entry.package_name ++ b := by
    refine ⟨fetchingMessage entry.package_name, ?_, "Fetching real daily data for ", "...", rfl⟩
    rcases hf : fetch entry.package_name with data | msg
    · simp only [get_daily_downloads, hf]
      split
      · simp
      · simp
    · simp [get_daily_downloads, hf]
  have hagg : fetch_all (pre ++ entry :: post) s e fetch = fetch_all (pre ++ post) s e fetch := by
    simp only [fetch_all, List.map_append, List.map_cons, List.flatten_append,
      List.flatten_cons, hempty]
    simp
  refine ⟨hempty, hmsg, hagg, ?_⟩
  intro r hr
  rw [hagg] at hr
  obtain ⟨en, hen, hpkg⟩ := fetch_all_package_mem (pre ++ post) s e fetch r hr
  rw [hpkg]
  exact hdistinct en hen

/-- A concrete service environment in which the fetch for `google-meridian`
fails and every other package succeeds with one in-range row. -/
def failingMeridianFetch : String → FetchResult := fun p =>
  if p == "google-meridian" then FetchResult.failure "timeout"
  else FetchResult.success [RawRecord.mk "without_mirrors" 5 7]

/-- Witness for C2 at a concrete input. -/
theorem fetch_all_isolates_failures_witness :
    (get_daily_downloads "google-meridian" 0 10
      (failingMeridianFetch "google-meridian")).records = [] ∧
    (∃ m ∈ (get_daily_downloads "google-meridian" 0 10
        (failingMeridianFetch "google-meridian")).messages,
      ∃ a b, m = a ++ "google-meridian" ++ b) ∧
    fetch_all MMM_PACKAGES 0 10 failingMeridianFetch =
      fetch_all [⟨"PyMC Marketing", "pymc-marketing"⟩, ⟨"Meta Robyn (Python)", "robynpy"⟩,
        ⟨"Uber Orbit", "orbit-ml"⟩] 0 10 failingMeridianFetch ∧
    (∀ r ∈ fetch_all MMM_PACKAGES 0 10 failingMeridianFetch,
      r.package ≠ "google-meridian") := by
  have h := fetch_all_isolates_failures
    [⟨"PyMC Marketing", "pymc-marketing"⟩]
    [⟨"Meta Robyn (Python)", "robynpy"⟩, ⟨"Uber Orbit", "orbit-ml"⟩]
    ⟨"Google Meridian", "google-meridian"⟩ 0 10 failingMeridianFetch
    (Or.inl ⟨"timeout", by decide⟩) (by decide)
  exact h

/-- The Growth Calculator `calculate_cagr(start_value, end_value, periods)`: compound annual growth
rate, modelled over the real numbers.  Returns `0` on any non-positive input,
otherwise `((end_value / start_value) ** (1 / periods) - 1) * 100` with real
exponentiation. -/
noncomputable def calculate_cagr (start_value end_value periods : ℝ) : ℝ :=
  if start_value ≤ 0 ∨ end_value ≤ 0 ∨ periods ≤ 0 then 0
  else ((end_value / start_value) ^ ((1 : ℝ) / periods) - 1) * 100

/-- C4: `calculate_cagr` returns exactly `0` whenever any argument is
non-positive, and otherwise returns `((e/s) ** (1/p) - 1) * 100`; it is a
pure total function (no side effects, never raises). -/
theorem calculate_cagr_spec (s e p : ℝ) :
    (s ≤ 0 ∨ e ≤ 0 ∨ p ≤ 0 → calculate_cagr s e p = 0) ∧
    (0 < s → 0 < e → 0 < p →
      calculate_cagr s e p = ((e / s) ^ ((1 : ℝ) / p) - 1) * 100) := by
  constructor
  · intro h
    simp [calculate_cagr, h]
  · intro hs he hp
    rw [calculate_cagr, if_neg]
    push_neg
    exact ⟨hs, he, hp⟩

/-- Witness for C4 at concrete inputs: the spec's example
`cagr(100, 400, 2) = 100` and a degenerate input `cagr(-1, 5, 2) = 0`. -/
theorem calculate_cagr_spec_witness :
    calculate_cagr 100 400 2 = 100 ∧ calculate_cagr (-1) 5 2 = 0 := by
  constructor
  · have h := (calculate_cagr_spec 100 400 2).2 (by norm_num) (by norm_num) (by norm_num)
    rw [h]
    have h4 : (400 : ℝ) / 100 = (2 : ℝ) ^ ((2 : ℕ) : ℝ) := by
      rw [Real.rpow_natCast]
      norm_num
    rw [h4, ← Real.rpow_mul (by norm_num : (0 : ℝ) ≤ 2)]
    norm_num [Real.rpow_one]
  · exact (calculate_cagr_spec (-1) 5 2).1 (Or.inl (by norm_num))

/-- Sorting step `package_data.sort_values(\x27date\x27)`: sort rows by date ascending. -/
def sortByDate (l : List TaggedRecord) : List TaggedRecord :=
  l.mergeSort (fun a b => decide (a.date ≤ b.date))

/-- Running sum with an accumulator: `cumsumFrom acc l` is the
list of partial sums of `l` each shifted by `acc`. -/
def cumsumFrom : Int → List Int → List Int
  | _, [] => []
  | acc, x :: xs => (acc + x) :: cumsumFrom (acc + x) xs

/-- Column cumulative sum `package_data[\x27downloads\x27].cumsum()`: running sum of a column. -/
def cumsum (l : List Int) : List Int := cumsumFrom 0 l

/-- Name enumeration `df[\x27display_name\x27].unique()`: the distinct display names in order of
first appearance. -/
def uniqueNames (l : List TaggedRecord) : List String :=
  l.foldl (fun acc r => if r.display_name ∈ acc then acc else acc ++ [r.display_name]) []

/-- The cumulative series the Renderer computes for one display name:
filter the full-history table to that name (on a copy), sort by date
ascending, and take the running sum of `downloads`. -/
def cumulativeSeries (cumulative_df : List TaggedRecord) (name : String) : List Int :=
  cumsum ((sortByDate (cumulative_df.filter
    (fun r => r.display_name == name))).map (fun r => r.downloads))

/-- The observable state of `create_plots`: the caller-visible contents of its
two input tables after the call, the per-name lines handed to the two axes,
the files written and the messages printed. -/
structure RenderState where
  df : List TaggedRecord
  cumulative_df : List TaggedRecord
  ax1_lines : List (String × List (Int × Int))
  ax2_lines : List (String × List (Int × Int))
  ax1_title : Option String
  ax2_title : Option String
  files : List String
  messages : List String
deriving Repr, DecidableEq

/-- One iteration of the left-panel loop: take a copy of the rows for one
display name, sort the copy by date, and plot `(date, downloads)` points.
The input tables are not written to. -/
def leftLoopStep (name : String) (s : RenderState) : RenderState :=
  let package_data := (s.df.filter (fun r => r.display_name == name))
  let package_data := sortByDate package_data
  { s with ax1_lines :=
      s.ax1_lines ++ [(name, package_data.map (fun r => (r.date, r.downloads)))] }

/-- One iteration of the right-panel loop: take a copy of the rows for one
display name, sort the copy by date, add a `cumulative` column holding the
running sum of `downloads`, and plot `(date, cumulative)` points.  The input
tables are not written to. -/
def rightLoopStep (name : String) (s : RenderState) : RenderState :=
  let package_data := sortByDate (s.cumulative_df.filter (fun r => r.display_name == name))
  let cumulative := cumsum (package_data.map (fun r => r.downloads))
  { s with ax2_lines :=
      s.ax2_lines ++ [(name, (package_data.map (fun r => r.date)).zip cumulative)] }

/-- The message printed by the early return of `create_plots`. -/
def noVisualizationMessage : String := "No data available for visualization"

/-- The file written by `plt.savefig` in `create_plots`. -/
def plotFileName : String := "mmm_downloads_analysis.png"

/-- The message printed after `plt.savefig` in `create_plots`. -/
def plotSavedMessage : String :=
  "📊 Visualization saved as \x27mmm_downloads_analysis.png\x27"

/-- The Renderer `create_plots(df, days, cumulative_df)`.  If either table is empty it
prints a message and returns early, writing nothing.  Otherwise it runs the
left-panel loop over the recent table's display names and the right-panel
loop over the full-history table's display names, saves the figure and
prints a confirmation. -/
def create_plots (df : List TaggedRecord) (days : Int)
    (cumulative_df : List TaggedRecord) : RenderState :=
  if df.isEmpty || cumulative_df.isEmpty then
    { df := df, cumulative_df := cumulative_df, ax1_lines := [], ax2_lines := [],
      ax1_title := none, ax2_title := none,
      files := [], messages := [noVisualizationMessage] }
  else
    let s0 : RenderState :=
      { df := df, cumulative_df := cumulative_df, ax1_lines := [], ax2_lines := [],
        ax1_title := none, ax2_title := none, files := [], messages := [] }
    let s1 := (uniqueNames df).foldl (fun s n => leftLoopStep n s) s0
    let ax1t := some ("Daily Downloads (Last " ++ toString days ++ " Days)")
    let s1 := { s1 with ax1_title := ax1t }
    let s2 := (uniqueNames cumulative_df).foldl (fun s n => rightLoopStep n s) s1
    let s2 := { s2 with ax2_title := some "Cumulative Downloads (Since Inception)" }
    { s2 with files := s2.files ++ [plotFileName],
              messages := s2.messages ++ [plotSavedMessage] }

/-- The left-panel loop never writes to the recent table. -/
@[simp] theorem leftFold_df (names : List String) (s : RenderState) :
    (names.foldl (fun s n => leftLoopStep n s) s).df = s.df := by
  induction names generalizing s with
  | nil => rfl
  | cons n ns ih => simpa only [List.foldl_cons, leftLoopStep] using ih _

/-- The left-panel loop never writes to the full-history table. -/
@[simp] theorem leftFold_cumulative_df (names : List String) (s : RenderState) :
    (names.foldl (fun s n => leftLoopStep n s) s).cumulative_df = s.cumulative_df := by
  induction names generalizing s with
  | nil => rfl
  | cons n ns ih => simpa only [List.foldl_cons, leftLoopStep] using ih _

/-- The left-panel loop writes no files. -/
@[simp] theorem leftFold_files (names : List String) (s : RenderState) :
    (names.foldl (fun s n => leftLoopStep n s) s).files = s.files := by
  induction names generalizing s with
  | nil => rfl
  | cons n ns ih => simpa only [List.foldl_cons, leftLoopStep] using ih _

/-- The left-panel loop prints nothing. -/
@[simp] theorem leftFold_messages (names : List String) (s : RenderState) :
    (names.foldl (fun s n => leftLoopStep n s) s).messages = s.messages := by
  induction names generalizing s with
  | nil => rfl
  | cons n ns ih => simpa only [List.foldl_cons, leftLoopStep] using ih _

/-- The right-panel loop never writes to the recent table. -/
@[simp] theorem rightFold_df (names : List String) (s : RenderState) :
    (names.foldl (fun s n => rightLoopStep n s) s).df = s.df := by
  induction names generalizing s with
  | nil => rfl
  | cons n ns ih => simpa only [List.foldl_cons, rightLoopStep] using ih _

/-- The right-panel loop never writes to the full-history table. -/
@[simp] theorem rightFold_cumulative_df (names : List String) (s : RenderState) :
    (names.foldl (fun s n => rightLoopStep n s) s).cumulative_df = s.cumulative_df := by
  induction names generalizing s with
  | nil => rfl
  | cons n ns ih => simpa only [List.foldl_cons, rightLoopStep] using ih _

/-- The right-panel loop writes no files. -/
@[simp] theorem rightFold_files (names : List String) (s : RenderState) :
    (names.foldl (fun s n => rightLoopStep n s) s).files = s.files := by
  induction names generalizing s with
  | nil => rfl
  | cons n ns ih => simpa only [List.foldl_cons, rightLoopStep] using ih _

/-- The right-panel loop prints nothing. -/
@[simp] theorem rightFold_messages (names : List String) (s : RenderState) :
    (names.foldl (fun s n => rightLoopStep n s) s).messages = s.messages := by
  induction names generalizing s with
  | nil => rfl
  | cons n ns ih => simpa only [List.foldl_cons, rightLoopStep] using ih _

/-- The running-sum column has one entry per input row. -/
@[simp] theorem length_cumsumFrom (acc : Int) (l : List Int) :
    (cumsumFrom acc l).length = l.length := by
  induction l generalizing acc with
  | nil => rfl
  | cons x xs ih => simpa only [cumsumFrom, List.length_cons] using congrArg (· + 1) (ih _)

/-- The running sums of a list of non-negative integers, each shifted by an
arbitrary accumulator, form a non-decreasing chain. -/
theorem cumsumFrom_chain (l : List Int) :
    ∀ acc : Int, (∀ x ∈ l, 0 ≤ x) →
      List.Chain' (fun a b => a ≤ b) (cumsumFrom acc l) := by
  induction l with
  | nil => intro acc _; exact List.chain'_nil
  | cons x xs ih =>
      intro acc h
      rw [cumsumFrom, List.chain'_cons']
      refine ⟨?_, ih (acc + x) (fun z hz => h z (List.mem_cons_of_mem _ hz))⟩
      intro y hy
      cases xs with
      | nil => simp [cumsumFrom] at hy
      | cons z zs =>
          rw [cumsumFrom] at hy
          simp only [List.head?_cons, Option.mem_def, Option.some.injEq] at hy
          have hz : (0 : Int) ≤ z :=
            h z (List.mem_cons_of_mem _ (List.mem_cons_self _ _))
          omega

/-- C6: for every display name of the full-history table, if all `downloads`
values are non-negative then the cumulative series the Renderer computes for
that name (running sum over the name's rows sorted by date ascending, not
crossing package boundaries) is non-decreasing. -/
theorem cumulativeSeries_nondecreasing (cumulative_df : List TaggedRecord)
    (name : String) (hname : name ∈ uniqueNames cumulative_df)
    (hpos : ∀ r ∈ cumulative_df, 0 ≤ r.downloads)
    (i : ℕ) (hi : i + 1 < (cumulativeSeries cumulative_df name).length) :
    (cumulativeSeries cumulative_df name).get ⟨i, by omega⟩ ≤
      (cumulativeSeries cumulative_df name).get ⟨i + 1, hi⟩ := by
  have hchain : List.Chain' (fun a b => a ≤ b) (cumulativeSeries cumulative_df name) := by
    unfold cumulativeSeries cumsum
    apply cumsumFrom_chain
    intro x hx
    simp only [List.mem_map, sortByDate, List.mem_mergeSort, List.mem_filter] at hx
    obtain ⟨r, ⟨hr, _⟩, hxr⟩ := hx
    exact hxr ▸ hpos r hr
  exact List.chain'_iff_get.mp hchain i (by omega)

/-- Witness for C6 at a concrete input. -/
theorem cumulativeSeries_nondecreasing_witness :
    (cumulativeSeries
      [TaggedRecord.mk 2 5 "orbit-ml" "Uber Orbit", TaggedRecord.mk 1 3 "orbit-ml" "Uber Orbit"]
      "Uber Orbit").get ⟨0, by simp [cumulativeSeries, sortByDate, cumsum, cumsumFrom]⟩ ≤
    (cumulativeSeries
      [TaggedRecord.mk 2 5 "orbit-ml" "Uber Orbit", TaggedRecord.mk 1 3 "orbit-ml" "Uber Orbit"]
      "Uber Orbit").get ⟨1, by simp [cumulativeSeries, sortByDate, cumsum, cumsumFrom]⟩ :=
  cumulativeSeries_nondecreasing
    [TaggedRecord.mk 2 5 "orbit-ml" "Uber Orbit", TaggedRecord.mk 1 3 "orbit-ml" "Uber Orbit"]
    "Uber Orbit" (by simp [uniqueNames]) (by decide) 0
    (by simp [cumulativeSeries, sortByDate, cumsum, cumsumFrom])

/-- C9: the Renderer leaves both of its input tables unchanged — after
`create_plots` returns, the recent table and the full-history table hold
exactly the rows they held on entry (all sorting and cumulative-sum work is
done on per-package copies). -/
theorem create_plots_preserves_tables (df : List TaggedRecord) (days : Int)
    (cumulative_df : List TaggedRecord) (hdf : df ≠ []) (hcdf : cumulative_df ≠ []) :
    (create_plots df days cumulative_df).df = df ∧
    (create_plots df days cumulative_df).cumulative_df = cumulative_df := by
  have hcond : (df.isEmpty || cumulative_df.isEmpty) = false := by
    cases df with
    | nil => exact absurd rfl hdf
    | cons a as =>
        cases cumulative_df with
        | nil => exact absurd rfl hcdf
        | cons b bs => rfl
  simp [create_plots, hcond]

/-- Witness for C9 at a concrete input. -/
theorem create_plots_preserves_tables_witness :
    (create_plots [TaggedRecord.mk 1 2 "robynpy" "Meta Robyn (Python)"] 30
      [TaggedRecord.mk 1 2 "robynpy" "Meta Robyn (Python)"]).df =
      [TaggedRecord.mk 1 2 "robynpy" "Meta Robyn (Python)"] ∧
    (create_plots [TaggedRecord.mk 1 2 "robynpy" "Meta Robyn (Python)"] 30
      [TaggedRecord.mk 1 2 "robynpy" "Meta Robyn (Python)"]).cumulative_df =
      [TaggedRecord.mk 1 2 "robynpy" "Meta Robyn (Python)"] :=
  create_plots_preserves_tables [TaggedRecord.mk 1 2 "robynpy" "Meta Robyn (Python)"] 30
    [TaggedRecord.mk 1 2 "robynpy" "Meta Robyn (Python)"]
    (by decide) (by decide)

/-- C7 counterexample: `create_plots` does itself perform the emptiness check
and return early — called with empty tables it prints the no-data message and
writes no file, whereas on non-empty tables the render path always writes the
image file. -/
theorem create_plots_empty_check_counterexample :
    (create_plots [] 30 []).files = [] ∧
    (create_plots [] 30 []).messages = [noVisualizationMessage] ∧
    (create_plots [TaggedRecord.mk 1 2 "robynpy" "Meta Robyn (Python)"] 30
      [TaggedRecord.mk 1 2 "robynpy" "Meta Robyn (Python)"]).files = [plotFileName] := by
  refine ⟨rfl, rfl, ?_⟩
  simp [create_plots]

/-- C7 amended: `create_plots` itself checks for an empty input table — with
an empty recent table or an empty full-history table it prints a no-data
message and returns early, writing no file and plotting nothing (the
Orchestrator additionally skips the call in that case). -/
theorem create_plots_empty_early_return (df : List TaggedRecord) (days : Int)
    (cumulative_df : List TaggedRecord) (h : df = [] ∨ cumulative_df = []) :
    (create_plots df days cumulative_df).files = [] ∧
    (create_plots df days cumulative_df).messages = [noVisualizationMessage] ∧
    (create_plots df days cumulative_df).ax1_lines = [] ∧
    (create_plots df days cumulative_df).ax2_lines = [] := by
  have hcond : (df.isEmpty || cumulative_df.isEmpty) = true := by
    rcases h with h | h <;> simp [h]
  simp [create_plots, hcond]

/-- Witness for the amended C7 at a concrete input. -/
theorem create_plots_empty_early_return_witness :
    (create_plots [] 7 [TaggedRecord.mk 1 2 "robynpy" "Meta Robyn (Python)"]).files = [] ∧
    (create_plots [] 7 [TaggedRecord.mk 1 2 "robynpy" "Meta Robyn (Python)"]).messages =
      [noVisualizationMessage] ∧
    (create_plots [] 7 [TaggedRecord.mk 1 2 "robynpy" "Meta Robyn (Python)"]).ax1_lines = [] ∧
    (create_plots [] 7 [TaggedRecord.mk 1 2 "robynpy" "Meta Robyn (Python)"]).ax2_lines = [] :=
  create_plots_empty_early_return [] 7 [TaggedRecord.mk 1 2 "robynpy" "Meta Robyn (Python)"]
    (Or.inl rfl)

/-- The contents of a written CSV file: a header row and the data rows, each
a list of cell strings. -/
structure CsvFile where
  header : List String
  rows : List (List String)
deriving Repr, DecidableEq

/-- The column order of the persisted table: the Fetcher builds
`date, downloads` and adds `package`; the Aggregator appends `display_name`. -/
def csvHeader : List String := ["date", "downloads", "package", "display_name"]

/-- One CSV data row for a record, cells in column order, no index cell
(`index=False`). -/
def recordToRow (r : TaggedRecord) : List String :=
  [toString r.date, toString r.downloads, r.package, r.display_name]

/-- The file written by `df.to_csv`. -/
def csvFileName : String := "mmm_download_data.csv"

/-- The message printed by `save_data` after writing. -/
def csvSavedMessage : String := "💾 Data saved as \x27mmm_download_data.csv\x27"

/-- What one call of `save_data` produces: the optional written file (name
and contents) and the messages printed. -/
structure SaveOutput where
  file : Option (String × CsvFile)
  messages : List String
deriving Repr, DecidableEq

/-- The Persister `save_data(df)`: if the table is non-empty, write it to the fixed CSV
file with no index column and print a confirmation; otherwise do nothing. -/
def save_data (df : List TaggedRecord) : SaveOutput :=
  if df.isEmpty then { file := none, messages := [] }
  else
    { file := some (csvFileName, { header := csvHeader, rows := df.map recordToRow }),
      messages := [csvSavedMessage] }

/-- C5: for every non-empty recent-window table, `save_data` writes a file
whose row count equals the table's record count, whose columns are exactly
`date, downloads, package, display_name` in that order, and whose rows carry
exactly those four cells (no index column). -/
theorem save_data_shape (df : List TaggedRecord) (hdf : df ≠ []) :
    ∃ f : CsvFile, (save_data df).file = some (csvFileName, f) ∧
      f.rows.length = df.length ∧
      f.header = ["date", "downloads", "package", "display_name"] ∧
      ∀ row ∈ f.rows, row.length = 4 := by
  have hcond : df.isEmpty = false := by
    cases df with
    | nil => exact absurd rfl hdf
    | cons a as => rfl
  refine ⟨{ header := csvHeader, rows := df.map recordToRow }, ?_, ?_, rfl, ?_⟩
  · simp [save_data, hcond]
  · simp
  · intro row hrow
    simp only [List.mem_map] at hrow
    obtain ⟨r, _, hr⟩ := hrow
    simp [← hr, recordToRow]

/-- Witness for C5 at a concrete input. -/
theorem save_data_shape_witness :
    ∃ f : CsvFile,
      (save_data [TaggedRecord.mk 1 2 "orbit-ml" "Uber Orbit"]).file = some (csvFileName, f) ∧
      f.rows.length = [TaggedRecord.mk 1 2 "orbit-ml" "Uber Orbit"].length ∧
      f.header = ["date", "downloads", "package", "display_name"] ∧
      ∀ row ∈ f.rows, row.length = 4 :=
  save_data_shape [TaggedRecord.mk 1 2 "orbit-ml" "Uber Orbit"] (by decide)

/-- Banner lines printed at the top of `main`. -/
def bannerMessages : List String :=
  ["🚀 MMM Libraries PyPI Download Tracker", String.mk (List.replicate 50 '=')]

/-- The message printed by `main` when either table is empty. -/
def noDataMessage : String := "No data retrieved. Please check package names and try again."

/-- The success message printed by `main`, which reports the window size. -/
def successMessage (days : Int) : String :=
  "\n✅ Analysis complete for last " ++ toString days ++ " days!"

/-- Window-size resolution: `--days` defaults to 30 when unspecified. -/
def resolveDays (daysArg : Option Int) : Int := daysArg.getD 30

/-- What one run of `main` observably produces: the files written in order
and the messages printed.  `main` always returns normally (the only non-zero
exit in the program is the pre-flight dependency check outside `main`). -/
structure MainOutput where
  files : List String
  messages : List String
deriving Repr, DecidableEq

/-- The Orchestrator `main()`: resolve the window size, fetch the recent-window table and the
full-history table, and if both are non-empty render the plots and persist
the recent table, reporting success with the window size; otherwise report
that no data was retrieved, producing no files.  The current calendar date
and the two rounds of service calls are passed in as parameters. -/
def main (daysArg : Option Int) (today : Int)
    (fetchRecent fetchFull : String → FetchResult) : MainOutput :=
  let days := resolveDays daysArg
  let df := fetch_all_daily_data days today fetchRecent
  let cumulative_df := fetch_all_cumulative_data today fetchFull
  if !df.isEmpty && !cumulative_df.isEmpty then
    let render := create_plots df days cumulative_df
    let saved := save_data df
    { files := render.files ++ (saved.file.map Prod.fst).toList,
      messages := bannerMessages ++ render.messages ++ saved.messages ++ [successMessage days] }
  else
    { files := [], messages := bannerMessages ++ [noDataMessage] }

/-- On non-empty inputs the render path writes exactly the image file and
prints exactly the confirmation. -/
theorem create_plots_files_messages (df : List TaggedRecord) (days : Int)
    (cumulative_df : List TaggedRecord) (hdf : df ≠ []) (hcdf : cumulative_df ≠ []) :
    (create_plots df days cumulative_df).files = [plotFileName] ∧
    (create_plots df days cumulative_df).messages = [plotSavedMessage] := by
  have hcond : (df.isEmpty || cumulative_df.isEmpty) = false := by
    cases df with
    | nil => exact absurd rfl hdf
    | cons a as =>
        cases cumulative_df with
        | nil => exact absurd rfl hcdf
        | cons b bs => rfl
  simp [create_plots, hcond]

/-- C3: `main` resolves the window size to 30 when `--days` is absent; if and
only if both tables are non-empty it invokes the Renderer and then the
Persister (image file before CSV file in the write order) and ends reporting
success with the window size; otherwise it reports that no data was
retrieved, writes no files, and still returns normally. -/
theorem main_spec (daysArg : Option Int) (today : Int)
    (fetchRecent fetchFull : String → FetchResult) :
    (daysArg = none → resolveDays daysArg = 30) ∧
    (fetch_all_daily_data (resolveDays daysArg) today fetchRecent ≠ [] ∧
        fetch_all_cumulative_data today fetchFull ≠ [] →
      (main daysArg today fetchRecent fetchFull).files = [plotFileName, csvFileName] ∧
      (main daysArg today fetchRecent fetchFull).messages.getLast? =
        some (successMessage (resolveDays daysArg))) ∧
    ((fetch_all_daily_data (resolveDays daysArg) today fetchRecent = [] ∨
        fetch_all_cumulative_data today fetchFull = []) →
      (main daysArg today fetchRecent fetchFull).files = [] ∧
      (main daysArg today fetchRecent fetchFull).messages.getLast? = some noDataMessage) ∧
    (∃ a b, successMessage (resolveDays daysArg) = a ++ toString (resolveDays daysArg) ++ b) := by
  refine ⟨fun h => by simp [resolveDays, h], ?_, ?_,
    ⟨"\n✅ Analysis complete for last ", " days!", rfl⟩⟩
  · rintro ⟨hdf, hcdf⟩
    have hdfE : (fetch_all_daily_data (resolveDays daysArg) today fetchRecent).isEmpty = false := by
      simp [List.isEmpty_iff, hdf]
    have hcdfE : (fetch_all_cumulative_data today fetchFull).isEmpty = false := by
      simp [List.isEmpty_iff, hcdf]
    obtain ⟨hfiles, hmsgs⟩ := create_plots_files_messages
      (fetch_all_daily_data (resolveDays daysArg) today fetchRecent) (resolveDays daysArg)
      (fetch_all_cumulative_data today fetchFull) hdf hcdf
    constructor
    · simp [main, hdfE, hcdfE, hfiles, save_data]
    · simp [main, hdfE, hcdfE, hmsgs, save_data]
  · intro h
    have hcond : (!(fetch_all_daily_data (resolveDays daysArg) today fetchRecent).isEmpty &&
        !(fetch_all_cumulative_data today fetchFull).isEmpty) = false := by
      rcases h with h | h <;> simp [h]
    constructor
    · simp [main, hcond]
    · simp [main, hcond]

/-- A concrete service environment in which every package's fetch succeeds
with one in-range row (dates around day 100). -/
def healthyFetch : String → FetchResult := fun _ =>
  FetchResult.success [RawRecord.mk "without_mirrors" 95 7]

/-- Witness for C3 at a concrete input. -/
theorem main_spec_witness :
    resolveDays none = 30 ∧
    (main none 100 healthyFetch healthyFetch).files = [plotFileName, csvFileName] ∧
    (main none 100 healthyFetch healthyFetch).messages.getLast? =
      some (successMessage (resolveDays none)) := by
  have h := main_spec none 100 healthyFetch healthyFetch
  refine ⟨h.1 rfl, h.2.1 ⟨?_, ?_⟩⟩
  · decide
  · decide

/-- The variant of `main` in which the Growth Calculator is replaced by an
arbitrary function: since no component of the pipeline invokes
`calculate_cagr`, the substituted function is simply never used. -/
def main_with_growth_calculator (growth : ℝ → ℝ → ℝ → ℝ) (daysArg : Option Int)
    (today : Int) (fetchRecent fetchFull : String → FetchResult) : MainOutput :=
  let days := resolveDays daysArg
  let df := fetch_all_daily_data days today fetchRecent
  let cumulative_df := fetch_all_cumulative_data today fetchFull
  if !df.isEmpty && !cumulative_df.isEmpty then
    let render := create_plots df days cumulative_df
    let saved := save_data df
    { files := render.files ++ (saved.file.map Prod.fst).toList,
      messages := bannerMessages ++ render.messages ++ saved.messages ++ [successMessage days] }
  else
    { files := [], messages := bannerMessages ++ [noDataMessage] }

/-- C8: the complete observable behaviour of `main` (files written, messages
printed, tables built) is identical to any variant in which `calculate_cagr`
is replaced by an arbitrary function — the Growth Calculator is never invoked
anywhere in the pipeline's control flow. -/
theorem main_independent_of_growth_calculator (growth : ℝ → ℝ → ℝ → ℝ)
    (daysArg : Option Int) (today : Int)
    (fetchRecent fetchFull : String → FetchResult) :
    main_with_growth_calculator growth daysArg today fetchRecent fetchFull =
      main daysArg today fetchRecent fetchFull := rfl

end PypiMMM
